import Mathlib

/-!
Verification of the MediScan vision inference and explainability pipeline
(backend/app/models/densenet.py) against its specification.

The numeric core is shallowly embedded over exact rationals: the severity
triage policy, the Grad-CAM map construction and normalization, the
preprocessing error path, the heatmap quantization, and the top-level
predict orchestration. External library calls (image decoding, crop/resize
interpolation, the network forward/backward pass) are parameters of the
embedded functions, matching the spec's boundary contracts.
-/

namespace MediScan

/-- The fixed 14-pathology label set (densenet.py lines 20-25). -/
def PATHOLOGY_LABELS : List String :=
  ["Atelectasis", "Cardiomegaly", "Consolidation", "Edema",
   "Effusion", "Emphysema", "Fibrosis", "Hernia",
   "Infiltration", "Mass", "Nodule", "Pleural_Thickening",
   "Pneumonia", "Pneumothorax"]

/-- Severity thresholds in the source dict's insertion order
(densenet.py lines 27-33); Python dicts iterate in insertion order. -/
def SEVERITY_THRESHOLDS : List (String × ℚ) :=
  [("URGENT", 85/100), ("SEVERE", 70/100), ("MODERATE", 50/100),
   ("MILD", 30/100), ("NORMAL", 0)]

/-- Conditions that trigger the URGENT override (densenet.py line 36). -/
def URGENT_CONDITIONS : List String := ["Pneumothorax", "Pneumonia", "Cardiomegaly"]

/-- One entry of the conditions list: a pathology name with a confidence. -/
structure PathologyScore where
  name : String
  confidence : ℚ
deriving Repr, DecidableEq

/-- The threshold-scan loop of `_classify_severity` (densenet.py lines 138-141):
return the first severity whose threshold is at most the confidence, with the
final `return "NORMAL"` fallback. -/
def findSeverity (maxConf : ℚ) : List (String × ℚ) → String
  | [] => "NORMAL"
  | (sev, thr) :: rest => if thr ≤ maxConf then sev else findSeverity maxConf rest

/-- `MediScanVisionModel._classify_severity` (densenet.py lines 129-141). -/
def classifySeverity : List PathologyScore → String
  | [] => "NORMAL"
  | top :: _ =>
    if top.name ∈ URGENT_CONDITIONS ∧ (70 : ℚ)/100 < top.confidence then "URGENT"
    else findSeverity top.confidence SEVERITY_THRESHOLDS

/-- Rank of a severity tier in the clinical-urgency order
NORMAL < MILD < MODERATE < SEVERE < URGENT (spec section 3). -/
def tierRank : String → ℕ
  | "URGENT" => 4
  | "SEVERE" => 3
  | "MODERATE" => 2
  | "MILD" => 1
  | _ => 0

/-- Claim C2: for every non-empty conditions list whose first element has a name
in the critical-pathology override set and confidence strictly above 0.70,
`classifySeverity` returns URGENT, bypassing the threshold ladder; in
particular it maps the singleton Pneumothorax at 0.75 to URGENT. -/
theorem classify_override_urgent (top : PathologyScore) (rest : List PathologyScore)
    (h1 : top.name ∈ URGENT_CONDITIONS) (h2 : (70 : ℚ)/100 < top.confidence) :
    classifySeverity (top :: rest) = "URGENT" ∧
      classifySeverity [⟨"Pneumothorax", 75/100⟩] = "URGENT" := by
  have main : ∀ (t : PathologyScore) (r : List PathologyScore),
      t.name ∈ URGENT_CONDITIONS → (70 : ℚ)/100 < t.confidence →
      classifySeverity (t :: r) = "URGENT" := by
    intro t r m hc
    simp only [classifySeverity, if_pos (And.intro m hc)]
  exact ⟨main top rest h1 h2, main ⟨"Pneumothorax", 75/100⟩ [] (by decide) (by norm_num)⟩

/-- Witness for claim C2 at the concrete input Pneumothorax 0.75. -/
theorem classify_override_urgent_witness :
    (PathologyScore.mk "Pneumothorax" (75/100)).name ∈ URGENT_CONDITIONS ∧
      (70 : ℚ)/100 < (PathologyScore.mk "Pneumothorax" (75/100)).confidence ∧
      (classifySeverity [⟨"Pneumothorax", 75/100⟩] = "URGENT" ∧
        classifySeverity [⟨"Pneumothorax", 75/100⟩] = "URGENT") :=
  ⟨by decide, by norm_num,
    classify_override_urgent ⟨"Pneumothorax", 75/100⟩ [] (by decide) (by norm_num)⟩

/-- Claim C3: `classifySeverity` is total; the empty list yields NORMAL, and a
non-override top element is classified by scanning the thresholds in the fixed
descending order URGENT 0.85, SEVERE 0.70, MODERATE 0.50, MILD 0.30, NORMAL 0,
returning the first tier whose threshold is at most the top confidence; in
particular Mass 0.55 yields MODERATE and Mass 0.20 yields NORMAL. -/
theorem classify_threshold_ladder (top : PathologyScore) (rest : List PathologyScore)
    (h : ¬ (top.name ∈ URGENT_CONDITIONS ∧ (70 : ℚ)/100 < top.confidence)) :
    classifySeverity [] = "NORMAL" ∧
    classifySeverity (top :: rest) =
      (if 85/100 ≤ top.confidence then "URGENT"
       else if 70/100 ≤ top.confidence then "SEVERE"
       else if 50/100 ≤ top.confidence then "MODERATE"
       else if 30/100 ≤ top.confidence then "MILD"
       else "NORMAL") ∧
    classifySeverity [⟨"Mass", 55/100⟩] = "MODERATE" ∧
    classifySeverity [⟨"Mass", 20/100⟩] = "NORMAL" := by
  have main : ∀ (t : PathologyScore) (r : List PathologyScore),
      ¬ (t.name ∈ URGENT_CONDITIONS ∧ (70 : ℚ)/100 < t.confidence) →
      classifySeverity (t :: r) =
        (if 85/100 ≤ t.confidence then "URGENT"
         else if 70/100 ≤ t.confidence then "SEVERE"
         else if 50/100 ≤ t.confidence then "MODERATE"
         else if 30/100 ≤ t.confidence then "MILD"
         else "NORMAL") := by
    intro t r ht
    simp only [classifySeverity, if_neg ht, SEVERITY_THRESHOLDS, findSeverity]
    split_ifs <;> rfl
  refine ⟨rfl, main top rest h, ?_, ?_⟩ <;>
    rw [main _ [] (by simp +decide [URGENT_CONDITIONS])] <;>
    split_ifs <;> first | rfl | norm_num at *

/-- Witness for claim C3 at the concrete input Mass 0.55. -/
theorem classify_threshold_ladder_witness :
    ¬ ((PathologyScore.mk "Mass" (55/100)).name ∈ URGENT_CONDITIONS ∧
        (70 : ℚ)/100 < (PathologyScore.mk "Mass" (55/100)).confidence) ∧
    (classifySeverity [] = "NORMAL" ∧
      classifySeverity [⟨"Mass", 55/100⟩] =
        (if 85/100 ≤ (PathologyScore.mk "Mass" (55/100)).confidence then "URGENT"
         else if 70/100 ≤ (PathologyScore.mk "Mass" (55/100)).confidence then "SEVERE"
         else if 50/100 ≤ (PathologyScore.mk "Mass" (55/100)).confidence then "MODERATE"
         else if 30/100 ≤ (PathologyScore.mk "Mass" (55/100)).confidence then "MILD"
         else "NORMAL") ∧
      classifySeverity [⟨"Mass", 55/100⟩] = "MODERATE" ∧
      classifySeverity [⟨"Mass", 20/100⟩] = "NORMAL") :=
  ⟨by simp +decide [URGENT_CONDITIONS],
    classify_threshold_ladder ⟨"Mass", 55/100⟩ [] (by simp +decide [URGENT_CONDITIONS])⟩

/-- Claim C6: outside the override case, severity is monotone in the top
confidence: for the same non-override top name and the same tail, a higher
top confidence never yields a strictly lower tier in the order
NORMAL < MILD < MODERATE < SEVERE < URGENT. -/
theorem classify_monotone (name : String) (c c' : ℚ) (rest : List PathologyScore)
    (hname : name ∉ URGENT_CONDITIONS) (hle : c ≤ c') :
    tierRank (classifySeverity (⟨name, c⟩ :: rest)) ≤
      tierRank (classifySeverity (⟨name, c'⟩ :: rest)) := by
  have h1 : ¬ ((PathologyScore.mk name c).name ∈ URGENT_CONDITIONS ∧
      (70 : ℚ)/100 < (PathologyScore.mk name c).confidence) := fun hc => hname hc.1
  have h2 : ¬ ((PathologyScore.mk name c').name ∈ URGENT_CONDITIONS ∧
      (70 : ℚ)/100 < (PathologyScore.mk name c').confidence) := fun hc => hname hc.1
  simp only [classifySeverity, if_neg h1, if_neg h2, SEVERITY_THRESHOLDS, findSeverity]
  split_ifs <;> first | decide | linarith

/-- Witness for claim C6 at name Mass, confidences 0.40 and 0.90. -/
theorem classify_monotone_witness :
    "Mass" ∉ URGENT_CONDITIONS ∧ (40 : ℚ)/100 ≤ 90/100 ∧
      tierRank (classifySeverity [⟨"Mass", 40/100⟩]) ≤
        tierRank (classifySeverity [⟨"Mass", 90/100⟩]) :=
  ⟨by decide, by norm_num, classify_monotone "Mass" (40/100) (90/100) [] (by decide) (by norm_num)⟩

/-- numpy `.min()` over the elements of an array, as a fold over the flattened
value list (empty arrays are rejected by numpy; the default branch is never
used on the nonempty maps this development applies it to). -/
def listMin : List ℚ → ℚ
  | [] => 0
  | x :: xs => xs.foldl min x

/-- numpy `.max()` over the elements of an array. -/
def listMax : List ℚ → ℚ
  | [] => 0
  | x :: xs => xs.foldl max x

/-- The normalization guard constant 1e-8 (densenet.py line 71). -/
def epsilonGC : ℚ := 1/100000000

/-- The Grad-CAM min-max normalization (densenet.py line 71):
cam = (cam - cam.min()) / (cam.max() - cam.min() + 1e-8), elementwise over
the flattened map. -/
def normalizeCam (m : List ℚ) : List ℚ :=
  m.map (fun v => (v - listMin m) / (listMax m - listMin m + epsilonGC))

theorem foldl_min_le (xs : List ℚ) (a : ℚ) :
    xs.foldl min a ≤ a ∧ ∀ x ∈ xs, xs.foldl min a ≤ x := by
  induction xs generalizing a with
  | nil => simp
  | cons y ys ih =>
    simp only [List.foldl_cons]
    obtain ⟨h1, h2⟩ := ih (min a y)
    refine ⟨le_trans h1 (min_le_left a y), ?_⟩
    intro x hx
    rcases List.mem_cons.mp hx with rfl | hx
    · exact le_trans h1 (min_le_right a x)
    · exact h2 x hx

theorem le_foldl_max (xs : List ℚ) (a : ℚ) :
    a ≤ xs.foldl max a ∧ ∀ x ∈ xs, x ≤ xs.foldl max a := by
  induction xs generalizing a with
  | nil => simp
  | cons y ys ih =>
    simp only [List.foldl_cons]
    obtain ⟨h1, h2⟩ := ih (max a y)
    refine ⟨le_trans (le_max_left a y) h1, ?_⟩
    intro x hx
    rcases List.mem_cons.mp hx with rfl | hx
    · exact le_trans (le_max_right a x) h1
    · exact h2 x hx

theorem listMin_le_of_mem {x : ℚ} {m : List ℚ} (hx : x ∈ m) : listMin m ≤ x := by
  cases m with
  | nil => cases hx
  | cons y ys =>
    rcases List.mem_cons.mp hx with rfl | hx
    · exact (foldl_min_le ys x).1
    · exact (foldl_min_le ys y).2 x hx

theorem le_listMax_of_mem {x : ℚ} {m : List ℚ} (hx : x ∈ m) : x ≤ listMax m := by
  cases m with
  | nil => cases hx
  | cons y ys =>
    rcases List.mem_cons.mp hx with rfl | hx
    · exact (le_foldl_max ys x).1
    · exact (le_foldl_max ys y).2 x hx

theorem foldl_min_eq_or_mem (xs : List ℚ) (a : ℚ) :
    xs.foldl min a = a ∨ xs.foldl min a ∈ xs := by
  induction xs generalizing a with
  | nil => exact Or.inl rfl
  | cons y ys ih =>
    simp only [List.foldl_cons]
    rcases ih (min a y) with h | h
    · rcases min_choice a y with h2 | h2 <;> rw [h, h2]
      · exact Or.inl rfl
      · exact Or.inr (List.mem_cons_self y ys)
    · exact Or.inr (List.mem_cons_of_mem y h)

theorem foldl_max_eq_or_mem (xs : List ℚ) (a : ℚ) :
    xs.foldl max a = a ∨ xs.foldl max a ∈ xs := by
  induction xs generalizing a with
  | nil => exact Or.inl rfl
  | cons y ys ih =>
    simp only [List.foldl_cons]
    rcases ih (max a y) with h | h
    · rcases max_choice a y with h2 | h2 <;> rw [h, h2]
      · exact Or.inl rfl
      · exact Or.inr (List.mem_cons_self y ys)
    · exact Or.inr (List.mem_cons_of_mem y h)

theorem listMin_mem {m : List ℚ} (hne : m ≠ []) : listMin m ∈ m := by
  cases m with
  | nil => exact absurd rfl hne
  | cons y ys =>
    rcases foldl_min_eq_or_mem ys y with h | h
    · rw [listMin, h]; exact List.mem_cons_self y ys
    · rw [listMin]; exact List.mem_cons_of_mem y h

theorem listMax_mem {m : List ℚ} (hne : m ≠ []) : listMax m ∈ m := by
  cases m with
  | nil => exact absurd rfl hne
  | cons y ys =>
    rcases foldl_max_eq_or_mem ys y with h | h
    · rw [listMax, h]; exact List.mem_cons_self y ys
    · rw [listMax]; exact List.mem_cons_of_mem y h

/-- Claim C4: for every nonempty raw activation map, the Grad-CAM
normalization never divides by zero (the denominator is nonzero), produces
only values in the interval from 0 to 1, and maps an all-zero input map to
an all-zero output map. -/
theorem normalizeCam_bounds (m : List ℚ) (hne : m ≠ []) :
    listMax m - listMin m + epsilonGC ≠ 0 ∧
    (∀ v ∈ normalizeCam m, 0 ≤ v ∧ v ≤ 1) ∧
    ((∀ v ∈ m, v = 0) → ∀ v ∈ normalizeCam m, v = 0) := by
  have hgap : 0 ≤ listMax m - listMin m := by
    have hmem := listMin_mem hne
    have h1 := listMin_le_of_mem hmem
    have h2 := le_listMax_of_mem hmem
    linarith
  have hden : 0 < listMax m - listMin m + epsilonGC := by
    have : (0:ℚ) < epsilonGC := by norm_num [epsilonGC]
    linarith
  refine ⟨ne_of_gt hden, ?_, ?_⟩
  · intro v hv
    obtain ⟨w, hw, rfl⟩ := List.mem_map.mp hv
    have hlo := listMin_le_of_mem hw
    have hhi := le_listMax_of_mem hw
    constructor
    · exact div_nonneg (by linarith) (le_of_lt hden)
    · rw [div_le_one hden]
      have : (0:ℚ) < epsilonGC := by norm_num [epsilonGC]
      linarith
  · intro hz v hv
    obtain ⟨w, hw, rfl⟩ := List.mem_map.mp hv
    have hminz : listMin m = 0 := hz _ (listMin_mem hne)
    have hwz : w = 0 := hz w hw
    rw [hminz, hwz]
    simp

/-- Witness for claim C4 at the concrete map with values 0 and one half. -/
theorem normalizeCam_bounds_witness :
    ([0, 1/2] : List ℚ) ≠ [] ∧
      (listMax [0, 1/2] - listMin [0, 1/2] + epsilonGC ≠ 0 ∧
       (∀ v ∈ normalizeCam [0, 1/2], 0 ≤ v ∧ v ≤ 1) ∧
       ((∀ v ∈ ([0, 1/2] : List ℚ), v = 0) → ∀ v ∈ normalizeCam [0, 1/2], v = 0)) :=
  ⟨by simp, normalizeCam_bounds [0, 1/2] (by simp)⟩

/-- torch `mean(dim=[2,3])` on a C×H×W tensor (densenet.py line 66): the
spatial average of each channel. -/
def torchMean23 {C H W : ℕ} (G : Fin C → Fin H → Fin W → ℚ) (c : Fin C) : ℚ :=
  (∑ i : Fin H, ∑ j : Fin W, G c i j) / ((H : ℚ) * (W : ℚ))

/-- The broadcast product `weights * self.activations` (densenet.py line 67). -/
def weightsMulActs {C H W : ℕ} (wt : Fin C → ℚ)
    (A : Fin C → Fin H → Fin W → ℚ) : Fin C → Fin H → Fin W → ℚ :=
  fun c h w => wt c * A c h w

/-- The channel sum `.sum(dim=1)` (densenet.py line 67). -/
def sumChannels {C H W : ℕ} (T : Fin C → Fin H → Fin W → ℚ) :
    Fin H → Fin W → ℚ :=
  fun h w => ∑ c : Fin C, T c h w

/-- `torch.relu` applied elementwise (densenet.py line 68). -/
def reluMap {H W : ℕ} (M : Fin H → Fin W → ℚ) : Fin H → Fin W → ℚ :=
  fun h w => max (M h w) 0

/-- The raw Grad-CAM map of `GradCAM.generate` (densenet.py lines 66-68):
spatial-mean channel weights, broadcast multiply with the activations,
channel sum, ReLU. -/
def camRaw {C H W : ℕ} (A G : Fin C → Fin H → Fin W → ℚ) :
    Fin H → Fin W → ℚ :=
  reluMap (sumChannels (weightsMulActs (torchMean23 G) A))

/-- The spec's channel-importance formula (spec section 4.3 step 3): the
spatial mean of one gradient channel. -/
def spatialMean {H W : ℕ} (g : Fin H → Fin W → ℚ) : ℚ :=
  (∑ i : Fin H, ∑ j : Fin W, g i j) / ((H : ℚ) * (W : ℚ))

/-- Claim C5: for every activation tensor A and gradient tensor G, the raw
Grad-CAM map computed by generate equals ReLU of the channel-weighted sum of
the activations, with each channel weight the spatial mean of the
corresponding gradient channel. -/
theorem camRaw_eq_weighted_sum {C H W : ℕ} (A G : Fin C → Fin H → Fin W → ℚ)
    (h : Fin H) (w : Fin W) :
    camRaw A G h w = max 0 (∑ c : Fin C, spatialMean (G c) * A c h w) := by
  simp [camRaw, reluMap, sumChannels, weightsMulActs, torchMean23, spatialMean,
    max_comm]

/-- The mutable per-instance capture state of the GradCAM class
(densenet.py lines 44-45): the hooks overwrite these fields on every
forward/backward pass. -/
structure GradCAMState (C H W : ℕ) where
  gradients : Option (Fin C → Fin H → Fin W → ℚ)
  activations : Option (Fin C → Fin H → Fin W → ℚ)

/-- The all-zero tensor, default for an unset capture slot. -/
def zeroTensor (C H W : ℕ) : Fin C → Fin H → Fin W → ℚ := fun _ _ _ => 0

/-- Flatten a 2D map to its value list in row-major order, for numpy-style
min/max reductions. -/
def flatten2 {H W : ℕ} (M : Fin H → Fin W → ℚ) : List ℚ :=
  ((List.finRange H).map (fun h => (List.finRange W).map (fun w => M h w))).flatten

/-- `GradCAM.generate` (densenet.py lines 60-73) with the engine's
deterministic forward and backward passes as function parameters (spec
section 4.2: forward is deterministic at evaluation time). The forward hook
overwrites the activations slot, the backward hook overwrites the gradients
slot, and the map is computed from the freshly written state and min-max
normalized; the final external resize to 224×224 is a further parameter. -/
def generate {C H W R : ℕ} {Input : Type}
    (forwardAct : Input → Fin C → Fin H → Fin W → ℚ)
    (backwardGrad : Input → ℕ → Fin C → Fin H → Fin W → ℚ)
    (resize : (Fin H → Fin W → ℚ) → Fin R → Fin R → ℚ)
    (s : GradCAMState C H W) (imageTensor : Input) (classIdx : ℕ) :
    GradCAMState C H W × (Fin R → Fin R → ℚ) :=
  let s1 : GradCAMState C H W := { s with activations := some (forwardAct imageTensor) }
  let s2 : GradCAMState C H W := { s1 with gradients := some (backwardGrad imageTensor classIdx) }
  let A := s2.activations.getD (zeroTensor C H W)
  let G := s2.gradients.getD (zeroTensor C H W)
  let cam := camRaw A G
  let camList := flatten2 cam
  let normalized : Fin H → Fin W → ℚ := fun h w =>
    (cam h w - listMin camList) / (listMax camList - listMin camList + epsilonGC)
  (s2, resize normalized)

/-- Claim C9: generate is deterministic. Running it a second time with the
same input tensor and class index, starting from the capture state the first
call left behind, yields the identical saliency map; more generally the
returned map does not depend on the prior capture state at all, even though
each call overwrites the shared state. -/
theorem generate_deterministic {C H W R : ℕ} {Input : Type}
    (forwardAct : Input → Fin C → Fin H → Fin W → ℚ)
    (backwardGrad : Input → ℕ → Fin C → Fin H → Fin W → ℚ)
    (resize : (Fin H → Fin W → ℚ) → Fin R → Fin R → ℚ)
    (s t : GradCAMState C H W) (imageTensor : Input) (classIdx : ℕ) :
    (generate forwardAct backwardGrad resize
        (generate forwardAct backwardGrad resize s imageTensor classIdx).1
        imageTensor classIdx).2 =
      (generate forwardAct backwardGrad resize s imageTensor classIdx).2 ∧
    (generate forwardAct backwardGrad resize s imageTensor classIdx).2 =
      (generate forwardAct backwardGrad resize t imageTensor classIdx).2 :=
  ⟨rfl, rfl⟩

/-- numpy `.astype(np.uint8)` on a nonnegative float value: truncation toward
zero, reduced modulo 256. -/
def astypeUint8 (x : ℚ) : ℕ := (Int.toNat ⌊x⌋) % 256

/-- The per-value heatmap quantization of `generate_heatmap_overlay`
(densenet.py line 152): `(heatmap * 255).astype(np.uint8)`. -/
def quantize8 (v : ℚ) : ℕ := astypeUint8 (v * 255)

/-- Counterexample to claim C7: at the saliency value one half the code's
quantization yields 127, while round of one half times 255 is 128, so the
quantization is not round-to-nearest. -/
theorem quantize8_ne_round :
    quantize8 (1/2) = 127 ∧ round ((1/2 : ℚ) * 255) = 128 ∧
      (quantize8 (1/2) : ℤ) ≠ round ((1/2 : ℚ) * 255) := by
  norm_num [quantize8, astypeUint8, round_eq]
  all_goals decide

/-- Claim C7 amended: every saliency value v in the interval from 0 to 1 is
mapped to the 8-bit intensity given by truncating v times 255 toward zero
(the floor), with no modular wraparound. -/
theorem quantize8_truncates (v : ℚ) (h0 : 0 ≤ v) (h1 : v ≤ 1) :
    (quantize8 v : ℤ) = ⌊v * 255⌋ := by
  have hnn : (0:ℚ) ≤ v * 255 := mul_nonneg h0 (by norm_num)
  have hfl : (0:ℤ) ≤ ⌊v * 255⌋ := Int.floor_nonneg.mpr hnn
  have hub : ⌊v * 255⌋ ≤ 255 := by
    have hb : v * 255 ≤ 255 := by linarith
    calc ⌊v * 255⌋ ≤ ⌊(255 : ℚ)⌋ := Int.floor_le_floor hb
      _ = 255 := by norm_num
  unfold quantize8 astypeUint8
  omega

/-- Witness for the amended claim C7 at the value one half. -/
theorem quantize8_truncates_witness :
    (0 : ℚ) ≤ 1/2 ∧ (1/2 : ℚ) ≤ 1 ∧ (quantize8 (1/2) : ℤ) = ⌊(1/2 : ℚ) * 255⌋ :=
  ⟨by norm_num, by norm_num, quantize8_truncates (1/2) (by norm_num) (by norm_num)⟩

/-- The error kinds of the error-handling design (spec section 7); the
repository surfaces the image library's decode exception, which the spec
names InvalidImageError. -/
inductive MediScanError where
  | invalidImage
  | unsupportedModel
  | numericInstability
deriving Repr, DecidableEq

/-- xrv.datasets.normalize with maxval 255 (densenet.py line 94): maps the
luminance range 0..255 onto the symmetric range -1024..1024. -/
def xrvNormalize (v : ℚ) : ℚ := (2 * (v / 255) - 1) * 1024

/-- A decoded single-channel image: a grid of luminance values. -/
structure GrayImage where
  pixels : List (List ℚ)
deriving Repr, DecidableEq

/-- A model-ready tensor of normalized values. -/
structure InputTensor where
  data : List (List ℚ)
deriving Repr, DecidableEq

/-- `MediScanVisionModel.preprocess` (densenet.py lines 90-97): decode the
bytes to a grayscale image, normalize with xrv.datasets.normalize, apply the
center-crop/resize transform. The external image decoder and the external
crop/resize transform are parameters; a decode failure is the decoder
returning none, surfaced as the invalid-image error. -/
def preprocess (decode : List ℕ → Option GrayImage)
    (transform : List (List ℚ) → List (List ℚ))
    (imageBytes : List ℕ) : Except MediScanError InputTensor :=
  match decode imageBytes with
  | none => .error .invalidImage
  | some img =>
    .ok ⟨transform (img.pixels.map (fun row => row.map xrvNormalize))⟩

/-- Claim C8: preprocess fails with the invalid-image error exactly on the
inputs the decoder cannot decode; any error it returns is the invalid-image
error, and on every decodable input it succeeds. -/
theorem preprocess_invalid_image (decode : List ℕ → Option GrayImage)
    (transform : List (List ℚ) → List (List ℚ)) (imageBytes : List ℕ) :
    (decode imageBytes = none ↔
      preprocess decode transform imageBytes = .error .invalidImage) ∧
    (∀ e, preprocess decode transform imageBytes = .error e →
      e = .invalidImage) ∧
    (∀ img, decode imageBytes = some img →
      preprocess decode transform imageBytes =
        .ok ⟨transform (img.pixels.map (fun row => row.map xrvNormalize))⟩) := by
  cases h : decode imageBytes <;> simp [preprocess, h]

/-- Witness for claim C8: a decoder that rejects everything makes preprocess
return the invalid-image error on a concrete byte string. -/
theorem preprocess_invalid_image_witness :
    preprocess (fun _ => none) id [0] = .error .invalidImage :=
  (preprocess_invalid_image (fun _ => none) id [0]).1.mp rfl

/-- The conditions list comprehension of predict (densenet.py lines
108-112): zip the engine's label list with the post-sigmoid probability
vector and keep the entries whose label is among the 14 pathology labels. -/
def buildConditions (pathologies : List String) (probabilities : List ℚ) :
    List PathologyScore :=
  ((pathologies.zip probabilities).filter
      (fun p => decide (p.1 ∈ PATHOLOGY_LABELS))).map
    (fun p => { name := p.1, confidence := p.2 })

/-- One insertion step of the stable descending sort. -/
def insertDesc (x : PathologyScore) : List PathologyScore → List PathologyScore
  | [] => [x]
  | y :: ys =>
    if y.confidence ≤ x.confidence then x :: y :: ys else y :: insertDesc x ys

/-- Python's stable `sort(key=confidence, reverse=True)` (densenet.py line
113) as a stable insertion sort: ties keep their original label order. -/
def sortDescStable (l : List PathologyScore) : List PathologyScore :=
  l.foldr insertDesc []

/-- Tail of np.argmax: fold over the remaining values keeping the index of
the first maximal element seen so far. -/
def argmaxFrom : List ℚ → ℕ → ℕ → ℚ → ℕ
  | [], _, best, _ => best
  | y :: ys, i, best, bestVal =>
    if bestVal < y then argmaxFrom ys (i+1) i y
    else argmaxFrom ys (i+1) best bestVal

/-- np.argmax (densenet.py line 119): index of the first occurrence of the
maximum of the probability vector. -/
def argmaxIdx : List ℚ → ℕ
  | [] => 0
  | x :: xs => argmaxFrom xs 1 0 x

/-- The fields of the dict returned by predict that the claims concern,
plus the class index handed to self.grad_cam.generate (densenet.py lines
119-120 and 122-127). -/
structure PredictResult where
  conditions : List PathologyScore
  severity : String
  camClassIdx : ℕ
  top_condition : String
deriving Repr, DecidableEq

/-- `MediScanVisionModel.predict` (densenet.py lines 99-127), with the
engine modeled by its label list and its post-sigmoid probability vector:
build and sort the filtered conditions, triage severity, and record the
Grad-CAM target index int(np.argmax(probabilities)). -/
def predict (pathologies : List String) (probabilities : List ℚ) :
    PredictResult :=
  let conditions := sortDescStable (buildConditions pathologies probabilities)
  { conditions := conditions
    severity := classifySeverity conditions
    camClassIdx := argmaxIdx probabilities
    top_condition := match conditions with | [] => "Normal" | c :: _ => c.name }

/-- Claim C1 fails on the code: with engine output labels Lung Opacity and
Mass at probabilities 0.9 and 0.5, the top element of the filtered sorted
conditions list is Mass, but the Grad-CAM saliency target is class index 0,
the argmax over the engine's unfiltered output vector, which names Lung
Opacity, a label outside the 14-label set. -/
theorem predict_saliency_target_mismatch :
    (predict ["Lung Opacity", "Mass"] [9/10, 1/2]).conditions = [⟨"Mass", 1/2⟩] ∧
    (predict ["Lung Opacity", "Mass"] [9/10, 1/2]).top_condition = "Mass" ∧
    (predict ["Lung Opacity", "Mass"] [9/10, 1/2]).camClassIdx = 0 ∧
    ["Lung Opacity", "Mass"][0]? = some "Lung Opacity" ∧
    "Lung Opacity" ≠ "Mass" := by
  refine ⟨rfl, rfl, ?_, rfl, by decide⟩
  show argmaxIdx [9/10, 1/2] = 0
  simp only [argmaxIdx, argmaxFrom]
  rw [if_neg (by norm_num : ¬ (9/10 : ℚ) < 1/2)]

/-- Claim C10: whenever the filtered conditions list is empty, predict still
returns a complete result whose top condition is the literal string Normal
and whose severity is NORMAL. -/
theorem predict_empty_normal (pathologies : List String) (probabilities : List ℚ)
    (h : buildConditions pathologies probabilities = []) :
    (predict pathologies probabilities).top_condition = "Normal" ∧
    (predict pathologies probabilities).severity = "NORMAL" := by
  simp [predict, h, sortDescStable, classifySeverity]

/-- Witness for claim C10 at the engine output Fracture 0.9, whose label is
outside the 14-label set. -/
theorem predict_empty_normal_witness :
    buildConditions ["Fracture"] [9/10] = [] ∧
      ((predict ["Fracture"] [9/10]).top_condition = "Normal" ∧
        (predict ["Fracture"] [9/10]).severity = "NORMAL") :=
  ⟨by decide, predict_empty_normal ["Fracture"] [9/10] (by decide)⟩

end MediScan
